import Mathlib

/-!
# Verification of the exam grading and timing engine of `app.py`

Shallow embedding of the question-bank loader, the grading engine
(`check_numeric_answer`, `grade_exam`), the demo-bank generator
(`generate_demo_bank`) and the timer/auto-submit block of the Streamlit
application, together with proofs of the behavioural claims made by the
specification.  Python numbers are modelled by `ℚ`, Python cell values
(`None` / NaN / `str` / numeric) by the inductive type `Cell`, and the
session-state mutation of the timer block by explicit state passing.
-/

set_option maxHeartbeats 1000000

namespace MathEesh

/-- A Python value held in a bank cell or passed around by the grading code:
`None` (the default of `row.get` for an absent column, or a missing answer),
a float64 NaN (what a blank cell of an imported CSV holds), a string, or a
finite number (`ℚ` standing in for `float`).  `None` and NaN must be kept
apart: `x in (None, "", np.nan)` is `True` for `None` but `False` for a
freshly boxed NaN — NaN compares unequal to everything and the identity
shortcut of `in` only fires for the `np.nan` singleton itself. -/
inductive Cell where
  | cnone
  | cnan
  | cstr (s : String)
  | cnum (q : ℚ)
deriving DecidableEq

/-- Decimal rendering of a rational of the form `m / 100`, `m ≥ 0`, mirroring
`str()` on the two-decimal floats produced by `round(x, 2)` in the generator
("113.1", "50.27", "12.0").  Only such values are ever rendered by the code. -/
def decimal2String (q : ℚ) : String :=
  let m := ⌊q * 100⌋
  let ip := m / 100
  let fr := (m % 100).toNat
  if fr = 0 then s!"{ip}.0"
  else if fr % 10 = 0 then s!"{ip}.{fr / 10}"
  else if fr < 10 then s!"{ip}.0{fr}"
  else s!"{ip}.{fr}"

/-- Python `str()` of a cell value: `str(None) = "None"`,
`str(float("nan")) = "nan"`, strings unchanged, finite numbers via their
decimal rendering. -/
def pyStr : Cell → String
  | .cnone => "None"
  | .cnan => "nan"
  | .cstr s => s
  | .cnum q => decimal2String q

/-- Python `str.upper()` (ASCII, as used on answer letters). -/
def pyUpper (s : String) : String :=
  String.mk (s.toList.map Char.toUpper)

/-- Python `str.lower()` (ASCII, as used on the `type` column and on file
names). -/
def pyLower (s : String) : String :=
  String.mk (s.toList.map Char.toLower)

/-- Python `str.strip() == ""`: true when every character is whitespace (also for the
empty string). -/
def isBlank (s : String) : Bool :=
  s.toList.all Char.isWhitespace

/-- The character map of `str.replace(',', '.')`. -/
def commaDotChar (ch : Char) : Char :=
  if ch = ',' then '.' else ch

/-- Model of `s.replace(',', '.')` used on a user's numeric answer text. -/
def commaToDot (s : String) : String :=
  String.mk (s.toList.map commaDotChar)

/-- Leading and trailing whitespace removal (Python `float()` ignores
surrounding whitespace). -/
def stripWs (l : List Char) : List Char :=
  ((l.dropWhile Char.isWhitespace).reverse.dropWhile Char.isWhitespace).reverse

/-- Numeric value of a nonempty digit string. -/
def digitsNat (l : List Char) : Nat :=
  l.foldl (fun n c => 10 * n + (c.toNat - 48)) 0

/-- Exponent digits of a float literal, after an optional sign. -/
def parseExpDigits (mant : ℚ) (neg : Bool) (l : List Char) : Option ℚ :=
  if l ≠ [] ∧ l.all Char.isDigit then
    some (if neg then mant / 10 ^ digitsNat l else mant * 10 ^ digitsNat l)
  else none

/-- Exponent part of a float literal (everything after `e`/`E`). -/
def parseExponent (mant : ℚ) : List Char → Option ℚ
  | '+' :: r => parseExpDigits mant false r
  | '-' :: r => parseExpDigits mant true r
  | r => parseExpDigits mant false r

/-- Unsigned decimal float literal: digits, an optional fractional part, an
optional exponent; the whole input must be consumed. -/
def parseUnsigned (l : List Char) : Option ℚ :=
  let ip := l.takeWhile Char.isDigit
  let r1 := l.dropWhile Char.isDigit
  match r1 with
  | [] => if ip = [] then none else some (digitsNat ip : ℚ)
  | '.' :: r2 =>
    let fp := r2.takeWhile Char.isDigit
    let r3 := r2.dropWhile Char.isDigit
    if ip = [] ∧ fp = [] then none
    else
      let mant : ℚ := (digitsNat ip : ℚ) + (digitsNat fp : ℚ) / 10 ^ fp.length
      match r3 with
      | [] => some mant
      | 'e' :: r4 => parseExponent mant r4
      | 'E' :: r4 => parseExponent mant r4
      | _ => none
  | 'e' :: r2 => if ip = [] then none else parseExponent (digitsNat ip : ℚ) r2
  | 'E' :: r2 => if ip = [] then none else parseExponent (digitsNat ip : ℚ) r2
  | _ => none

/-- Optional sign in front of an unsigned float literal. -/
def parseSigned : List Char → Option ℚ
  | '+' :: r => parseUnsigned r
  | '-' :: r => (parseUnsigned r).map Neg.neg
  | r => parseUnsigned r

/-- Python `float(s)` on decimal string literals: surrounding whitespace is
ignored; empty or non-numeric input fails (the model omits the `inf`/`nan`
and digit-underscore forms, which never arise in the claims). -/
def pyFloatOfString (s : String) : Option ℚ :=
  parseSigned (stripWs s.toList)

/-- A successfully coerced `float`: either NaN or a finite value.  Coercion
failures (exceptions) are the `none` of `Option Coerced`. -/
inductive Coerced where
  | nan
  | fin (q : ℚ)
deriving DecidableEq

/-- Python `float(x)` on a cell value: `float(None)` raises (`none`),
`float(nan)` is NaN, strings are parsed (the model omits the `"nan"`/`"inf"`
string forms, whose NaN/infinite results also grade incorrect), finite
numbers pass through. -/
def pyFloat : Cell → Option Coerced
  | .cnone => none
  | .cnan => some .nan
  | .cstr s => (pyFloatOfString s).map Coerced.fin
  | .cnum q => some (.fin q)

/-- Model of `float(tolerance) if tolerance not in (None, "", np.nan) else 0.0`
(line 137): `None` (absent column) and the empty string are members of the
tuple, so they mean tolerance 0; a boxed float64 NaN — what a blank CSV
tolerance cell holds — is not a member (NaN compares unequal to everything
and the identity shortcut never fires for a freshly boxed value), so it
falls through to `float(nan) = nan`; any other value is coerced with
`float`, whose failure (`none`) makes the whole check false. -/
def tolValue : Cell → Option Coerced
  | .cnone => some (.fin 0)
  | .cnan => some .nan
  | .cstr s => if s = "" then some (.fin 0) else (pyFloatOfString s).map Coerced.fin
  | .cnum q => some (.fin q)

/-- Python `abs(u - c)` on coerced floats: NaN propagates. -/
def pyAbsSub : Coerced → Coerced → Coerced
  | .fin x, .fin y => .fin |x - y|
  | _, _ => .nan

/-- Python `<=` on coerced floats: any comparison involving NaN is `False`. -/
def pyLe : Coerced → Coerced → Bool
  | .fin x, .fin y => decide (x ≤ y)
  | _, _ => false

/-- Body of `check_numeric_answer` after the `None` test: blank input is
wrong; otherwise parse the user text (commas as decimal points), the correct
value and the tolerance, and compare `abs(u - c) <= tol` — `False` whenever
NaN is involved; any coercion failure (the `except` branch) yields `False`. -/
def checkCore (s : String) (correct_value tolerance : Cell) : Bool :=
  if isBlank s then false
  else
    match pyFloatOfString (commaToDot s), pyFloat correct_value, tolValue tolerance with
    | some u, some c, some tol => pyLe (pyAbsSub (.fin u) c) tol
    | _, _, _ => false

/-- Model of `check_numeric_answer(user_text, correct_value, tolerance)` (lines
131-140 of `app.py`). -/
def check_numeric_answer (user_text correct_value tolerance : Cell) : Bool :=
  match user_text with
  | .cnone => false
  | ut => checkCore (pyStr ut) correct_value tolerance

/-- One row of the question bank (§3 of the spec; the dict literals of
`generate_demo_bank` and the columns of an imported bank).  `variant` and
`qnum` are integers after the loader's coercion; `score` is numeric per the
data model (`grade_exam` applies `float(row.score)` unconditionally). -/
structure Row where
  variant : Int
  qnum : Int
  type : String
  question : String
  A : String
  B : String
  C : String
  D : String
  correct : Cell
  score : ℚ
  solution : String
  topic : String
  difficulty : String
  tolerance : Cell
deriving DecidableEq

/-- The session's answer dictionary, keyed by `(variant, qnum)`; values are
the raw strings stored by the radio / text-input widgets. -/
def AnswerMap : Type := List ((Int × Int) × String)

/-- Model of `answers.get(key, None)` on the answer dictionary. -/
def dictGet (answers : AnswerMap) (key : Int × Int) : Option String :=
  List.lookup key answers

/-- The Python value bound to `ans` in `grade_exam`: the stored string, or
`None` when the key is absent. -/
def cellOfAns : Option String → Cell
  | none => .cnone
  | some s => .cstr s

/-- One detail record appended by `grade_exam` (lines 158-162). -/
structure Detail where
  variant : Int
  qnum : Int
  type : String
  topic : String
  difficulty : String
  correct : Cell
  your : Option String
  is_correct : Bool
  score : ℚ
  max_score : ℚ
deriving DecidableEq

/-- Default detail used only as the out-of-range value of `List.getD`. -/
def defaultDetail : Detail :=
  { variant := 0, qnum := 0, type := "", topic := "", difficulty := "",
    correct := .cnone, your := none, is_correct := false, score := 0, max_score := 0 }

/-- The loop body of `grade_exam` for one bank row (lines 147-162): look up
the answer, grade it by question type — string comparison after `.upper()`
for `mcq`, `check_numeric_answer` otherwise — and build the detail record. -/
def gradeRow (answers : AnswerMap) (row : Row) : Detail :=
  let ans := dictGet answers (row.variant, row.qnum)
  let ok :=
    if pyLower row.type = "mcq" then
      pyUpper (pyStr (cellOfAns ans)) == pyUpper (pyStr row.correct)
    else
      check_numeric_answer (cellOfAns ans) row.correct row.tolerance
  let s := if ok then row.score else 0
  { variant := row.variant, qnum := row.qnum, type := row.type,
    topic := row.topic, difficulty := row.difficulty, correct := row.correct,
    your := ans, is_correct := ok, score := s, max_score := row.score }

/-- Model of `grade_exam(bank, answers)` (lines 143-163): fold the loop body over the
bank accumulating `total`, `max_total` and the detail list.  The answer
dictionary is threaded through as explicit state and returned, so that the
absence of mutation is part of the contract. -/
def grade_exam (bank : List Row) (answers : AnswerMap) :
    (ℚ × ℚ × List Detail) × AnswerMap :=
  (bank.foldl
    (fun acc row =>
      let d := gradeRow answers row
      (acc.1 + d.score, acc.2.1 + d.max_score, acc.2.2 ++ [d]))
    (0, 0, []),
   answers)

/-- Constant `TOTAL_QUESTIONS` (line 45). -/
def TOTAL_QUESTIONS : Nat := 40

/-- Constant `TOTAL_VARIANTS` (line 46). -/
def TOTAL_VARIANTS : Nat := 4

/-- Constant `EXAM_DURATION_MIN` (line 47), in minutes. -/
def EXAM_DURATION_MIN : ℚ := 100

/-- The exam-session flags and start timestamp kept in `st.session_state`
(lines 228-232); `start_time` is an absolute wall-clock time in seconds. -/
structure Session where
  started : Bool
  submitted : Bool
  start_time : ℚ
deriving DecidableEq

/-- Model of `max(timedelta(minutes=EXAM_DURATION_MIN) - elapsed, timedelta(seconds=0))`
(line 296), in seconds. -/
def remainingSeconds (start now : ℚ) : ℚ :=
  max (EXAM_DURATION_MIN * 60 - (now - start)) 0

/-- The timer/auto-submit block (lines 293-303), as one evaluation step at
wall-clock time `now`: when the session is started it computes the clamped
remaining time, displays it as minutes and seconds (the returned pair), and
sets `submitted` when the remaining time has reached zero; when not started
it shows nothing and changes nothing. -/
def timer_step (ss : Session) (now : ℚ) : Session × Option (Int × Int) :=
  if ss.started then
    let remain := remainingSeconds ss.start_time now
    let mins := ⌊remain / 60⌋
    let secs := ⌊remain⌋ - 60 * ⌊remain / 60⌋
    let ss' := if remain ≤ 0 ∧ ss.submitted = false then { ss with submitted := true } else ss
    (ss', some (mins, secs))
  else (ss, none)

/-- The global pseudo-random generator state.  This is a deterministic
executable stand-in for the CPython Mersenne Twister behind `random.seed` /
`random.randint` / `random.shuffle`: the claims about `generate_demo_bank`
quantify only over determinism of the draws, never over their values. -/
structure RNG where
  state : Nat
deriving DecidableEq

/-- Model of `random.seed(seed)` (and `np.random.seed(seed)`): the global generator
state becomes a function of the seed alone. -/
def RNG.seedWith (seed : Int) : RNG :=
  ⟨2 * seed.natAbs + (if seed < 0 then 1 else 0)⟩

/-- One raw draw from the generator (a 31-bit value and the next state). -/
def RNG.next (g : RNG) : Nat × RNG :=
  let s := (g.state * 6364136223846793005 + 1442695040888963407) % 2 ^ 64
  (s / 2 ^ 33, ⟨s⟩)

/-- Model of `random.randint(a, b)`: a draw reduced to the inclusive range `[a, b]`. -/
def RNG.randint (g : RNG) (a b : Int) : Int × RNG :=
  let (n, g') := g.next
  (a + ((n % (b - a + 1).toNat : Nat) : Int), g')

/-- A draw below `n` (used by the shuffle). -/
def RNG.randbelow (g : RNG) (n : Nat) : Nat × RNG :=
  let (m, g') := g.next
  (m % n, g')

/-- Swap the entries at positions `i` and `j` of a list. -/
def listSwap {α : Type} (l : List α) (i j : Nat) : List α :=
  match l.get? i, l.get? j with
  | some a, some b => (l.set i b).set j a
  | _, _ => l

/-- Fisher-Yates pass of `random.shuffle`, swapping positions `i+1, i, …, 1`
each with a drawn position below it. -/
def shuffleGo {α : Type} (g : RNG) (l : List α) : Nat → List α × RNG
  | 0 => (l, g)
  | i + 1 =>
    let (j, g') := g.randbelow (i + 2)
    shuffleGo g' (listSwap l (i + 1) j) i

/-- Model of `random.shuffle(l)` returning the shuffled list and the new state. -/
def RNG.shuffle {α : Type} (g : RNG) (l : List α) : List α × RNG :=
  shuffleGo g l (l.length - 1)

/-- The four topic labels (line 71). -/
def topics : List String :=
  ["Алгебр", "Функц/График", "Геометр", "Магадлал/Статистик"]

/-- The difficulty labels (lines 90 and 101). -/
def difficulties : List String := ["Easy", "Medium", "Hard"]

/-- The option letters `"ABCD"` indexed by position (line 84). -/
def letters : List String := ["A", "B", "C", "D"]

/-- Decimal half-even model of `round(x, 2)` (the two-decimal rounding used
for the demo areas and tolerances; for the values `3.1416 * r * r`, `r` an
integer, the tie case never occurs). -/
def pyRound2 (q : ℚ) : ℚ :=
  let y := q * 100
  let n := ⌊y⌋
  let r := y - (n : ℚ)
  let m := if r > 1 / 2 then n + 1
           else if r < 1 / 2 then n
           else if n % 2 = 0 then n else n + 1
  (m : ℚ) / 100

/-- The loop body of `generate_demo_bank` for variant `v`, question `q`
(lines 74-102): odd `q` builds a linear-equation MCQ with shuffled options,
even `q` a circle-area numeric question with a 5% tolerance. -/
def demoQuestion (g : RNG) (v q : Nat) : Row × RNG :=
  let topic := topics.getD ((q - 1) % topics.length) ""
  let difficulty := difficulties.getD (q % 3) ""
  if q % 2 = 1 then
    let (a, g) := g.randint 2 9
    let (b, g) := g.randint 0 9
    let (x, g) := g.randint 1 9
    let c := a * x + b
    let qtext := s!"{a}x + {b} = {c}. x-ийн утга?"
    let options_vals := [x, x + 1, x - 1, x + 2]
    let (vals, g) := g.shuffle options_vals
    let correct_letter := letters.getD (vals.indexOf x) ""
    ({ variant := (v : Int), qnum := (q : Int), type := "mcq", question := qtext,
       A := toString (vals.getD 0 0), B := toString (vals.getD 1 0),
       C := toString (vals.getD 2 0), D := toString (vals.getD 3 0),
       correct := .cstr correct_letter, score := 1,
       solution := s!"{a}x = {c}-{b} ⇒ x={(c - b) / a}",
       topic := topic, difficulty := difficulty, tolerance := .cstr "" }, g)
  else
    let (r, g) := g.randint 2 12
    let area := pyRound2 ((31416 : ℚ) / 10000 * (r : ℚ) * (r : ℚ))
    let qtext := s!"Радиус {r} см тойргийн талбайг π=3.1416 гэж тооцоод олоорой (см²)."
    ({ variant := (v : Int), qnum := (q : Int), type := "num", question := qtext,
       A := "", B := "", C := "", D := "",
       correct := .cnum area, score := 1,
       solution := "S=πr²=3.1416×" ++ toString r ++ "²≈" ++ decimal2String area,
       topic := topic, difficulty := difficulty,
       tolerance := .cnum (pyRound2 (5 / 100 * area)) }, g)

/-- Model of `generate_demo_bank(seed)` (lines 66-103): `random.seed(seed)` replaces
the incoming global generator state `g0` with a state derived from the seed
alone, then the 4 × 40 rows are generated in order, threading the state. -/
def generate_demo_bank (seed : Int) (g0 : RNG) : List Row × RNG :=
  let g := RNG.seedWith seed
  (List.range TOTAL_VARIANTS).foldl
    (fun accv vi =>
      (List.range TOTAL_QUESTIONS).foldl
        (fun acc qi =>
          let (row, g') := demoQuestion acc.2 (vi + 1) (qi + 1)
          (acc.1 ++ [row], g'))
        accv)
    ([], g)

/-- A tabular file as produced by `pd.read_csv` / `pd.read_json`: column
names plus rows of cells aligned with them. -/
structure DataFrame where
  cols : List String
  cells : List (List Cell)
deriving DecidableEq

/-- The content of an uploaded file: either a table the reader parses, or
input on which the reader raises (the `except` branch of the loader). -/
inductive FileData where
  | malformed
  | table (cols : List String) (cells : List (List Cell))
deriving DecidableEq

/-- An uploaded file: its name (for the extension test) and its content. -/
structure Upload where
  name : String
  data : FileData
deriving DecidableEq

/-- Model of `name.endswith(suffix)`. -/
def pyEndsWith (s suffix : String) : Bool :=
  List.isSuffixOf suffix.toList s.toList

/-- Nonempty digit run, as an integer. -/
def parseIntDigits (l : List Char) : Option Int :=
  if l ≠ [] ∧ l.all Char.isDigit then some (digitsNat l : Int) else none

/-- Python `int(s)` on a string: optional sign and digits, whitespace
ignored; anything else (including `"3.5"`) raises. -/
def parseIntOfString (s : String) : Option Int :=
  match stripWs s.toList with
  | '+' :: r => parseIntDigits r
  | '-' :: r => (parseIntDigits r).map Neg.neg
  | r => parseIntDigits r

/-- Truncation toward zero, the float-to-int cast of `astype(int)`. -/
def truncQ (q : ℚ) : Int :=
  if 0 ≤ q then ⌊q⌋ else -⌊-q⌋

/-- Coercion of one cell by `astype(int)`: finite numbers truncate, strings
go through `int()`, a missing value or NaN raises. -/
def cellToInt : Cell → Option Int
  | .cnone => none
  | .cnan => none
  | .cstr s => parseIntOfString s
  | .cnum q => some (truncQ q)

/-- Model of `df[col] = df[col].astype(int)`: coerce every cell of the column,
raising (`none`) as soon as one cell cannot be coerced or the column is
absent. -/
def astypeIntCol (df : DataFrame) (col : String) : Option DataFrame :=
  match df.cols.findIdx? (· = col) with
  | none => none
  | some i =>
    (df.cells.mapM (fun row =>
      (cellToInt (row.getD i .cnone)).map (fun n => row.set i (.cnum (n : ℚ))))).map
      (fun cells => { df with cells := cells })

/-- The required columns of an imported bank (line 121). -/
def requiredCols : List String :=
  ["variant", "qnum", "type", "question", "correct", "score"]

/-- Model of `load_bank_from_upload(upload)` (lines 106-128).  `Except.ok none`
models "error shown with `st.error`, `None` returned"; `Except.error`
models an exception escaping the function (only the `astype` coercions at
lines 126-127 sit outside the `try`, so only they can raise). -/
def coerce_qnum (df1 : DataFrame) : Except String (Option DataFrame) :=
  match astypeIntCol df1 "qnum" with
  | none => .error "TypeError: cannot coerce qnum to int"
  | some df2 => .ok (some df2)

/-- Lines 126-127: the two `astype(int)` coercions, `variant` first; a
failure of either is an exception that the loader does not catch. -/
def coerce_variant_qnum (cols : List String) (cells : List (List Cell)) :
    Except String (Option DataFrame) :=
  match astypeIntCol ⟨cols, cells⟩ "variant" with
  | none => .error "TypeError: cannot coerce variant to int"
  | some df1 => coerce_qnum df1

/-- Lines 121-128 on a successfully parsed table: the required-columns check
(error shown and `None` returned when columns are missing), then the integer
coercions. -/
def load_table (cols : List String) (cells : List (List Cell)) :
    Except String (Option DataFrame) :=
  if requiredCols.filter (fun c => ¬ cols.contains c) ≠ [] then .ok none
  else coerce_variant_qnum cols cells

/-- The body of the `try` on the parsed content: a reader exception is
caught (`None` returned), a parsed table goes on to validation. -/
def load_parsed : FileData → Except String (Option DataFrame)
  | .malformed => .ok none
  | .table cols cells => load_table cols cells

def load_bank_core (u : Upload) : Except String (Option DataFrame) :=
  if pyEndsWith (pyLower u.name) ".csv" || pyEndsWith (pyLower u.name) ".json" then
    load_parsed u.data
  else .ok none

/-- The `upload is None` early return wrapped around `load_bank_core`. -/
def load_bank_from_upload (upload : Option Upload) : Except String (Option DataFrame) :=
  match upload with
  | none => .ok none
  | some u => load_bank_core u

/-- The bank chosen for the session. -/
inductive BankSource where
  | uploaded (df : DataFrame)
  | demo (bank : List Row)
deriving DecidableEq

/-- The sidebar import block (lines 219-224): use the uploaded bank when the
loader returns one, fall back to `generate_demo_bank()` (default seed 12)
when it returns `None`, and abort the script run when the loader raises. -/
def bank_select (g : RNG) (upload : Option Upload) : Except String BankSource :=
  match load_bank_from_upload upload with
  | .error e => .error e
  | .ok none => .ok (.demo (generate_demo_bank 12 g).1)
  | .ok (some df) => .ok (.uploaded df)

/-- A syntactically well-formed CSV upload whose `variant` column holds a
value `int()` cannot coerce. -/
def badVariantUpload : Upload :=
  { name := "bank.csv",
    data := .table ["variant", "qnum", "type", "question", "correct", "score"]
      [[.cstr "x", .cstr "1", .cstr "mcq", .cstr "q", .cstr "A", .cnum 1]] }

/-- An upload whose extension is neither `.csv` nor `.json`. -/
def txtUpload : Upload :=
  { name := "bank.txt", data := .malformed }

/-- A single-row bank whose stored correct value is the literal string
`"None"`. -/
def noneRow : Row :=
  { variant := 1, qnum := 1, type := "mcq", question := "q",
    A := "", B := "", C := "", D := "", correct := .cstr "None", score := 1,
    solution := "", topic := "t", difficulty := "Easy", tolerance := .cstr "" }

/-- A single-row bank with an ordinary letter answer `"B"`. -/
def bRow : Row :=
  { variant := 1, qnum := 1, type := "mcq", question := "q",
    A := "1", B := "2", C := "3", D := "4", correct := .cstr "B", score := 1,
    solution := "", topic := "t", difficulty := "Easy", tolerance := .cstr "" }

/-! ## Shared characterization lemmas -/

theorem grade_foldl (answers : AnswerMap) (bank : List Row) (t m : ℚ) (ds : List Detail) :
    bank.foldl
      (fun acc row =>
        let d := gradeRow answers row
        (acc.1 + d.score, acc.2.1 + d.max_score, acc.2.2 ++ [d]))
      (t, m, ds)
    = (t + ((bank.map (fun r => (gradeRow answers r).score)).sum),
       m + ((bank.map (fun r => (gradeRow answers r).max_score)).sum),
       ds ++ bank.map (gradeRow answers)) := by
  induction bank generalizing t m ds with
  | nil => simp
  | cons r tl ih =>
    simp only [List.foldl_cons, List.map_cons, List.sum_cons, ih]
    simp [add_assoc]

theorem grade_exam_details (bank : List Row) (answers : AnswerMap) :
    ((grade_exam bank answers).1).2.2 = bank.map (gradeRow answers) := by
  simp [grade_exam, grade_foldl]

theorem grade_exam_total (bank : List Row) (answers : AnswerMap) :
    ((grade_exam bank answers).1).1
      = (bank.map (fun r => (gradeRow answers r).score)).sum := by
  simp [grade_exam, grade_foldl]

theorem grade_exam_max (bank : List Row) (answers : AnswerMap) :
    ((grade_exam bank answers).1).2.1 = (bank.map Row.score).sum := by
  simp only [grade_exam, grade_foldl, zero_add]
  congr 1

theorem getD_map_of_lt {α β : Type} (f : α → β) (l : List α) (i : Nat)
    (hi : i < l.length) (d : β) :
    (l.map f).getD i d = f l[i] := by
  induction l generalizing i with
  | nil => exact absurd hi (Nat.not_lt_zero i)
  | cons a tl ih =>
    cases i with
    | zero => rfl
    | succ n => exact ih n (Nat.lt_of_succ_lt_succ hi)

theorem detail_getD (bank : List Row) (answers : AnswerMap) (i : Nat)
    (hi : i < bank.length) :
    (((grade_exam bank answers).1).2.2).getD i defaultDetail
      = gradeRow answers bank[i] := by
  rw [grade_exam_details, getD_map_of_lt _ _ _ hi]

theorem gradeRow_is_correct (answers : AnswerMap) (row : Row) :
    (gradeRow answers row).is_correct
      = (if pyLower row.type = "mcq" then
          pyUpper (pyStr (cellOfAns (dictGet answers (row.variant, row.qnum))))
            == pyUpper (pyStr row.correct)
        else
          check_numeric_answer (cellOfAns (dictGet answers (row.variant, row.qnum)))
            row.correct row.tolerance) := rfl

theorem gradeRow_score (answers : AnswerMap) (row : Row) :
    (gradeRow answers row).score
      = (if (gradeRow answers row).is_correct then row.score else 0) := rfl

theorem gradeRow_max_score (answers : AnswerMap) (row : Row) :
    (gradeRow answers row).max_score = row.score := rfl

theorem ws_commaDotChar (ch : Char) :
    (commaDotChar ch).isWhitespace = ch.isWhitespace := by
  by_cases h : ch = ','
  · subst h; decide
  · simp [commaDotChar, h]

theorem commaDotChar_idem (ch : Char) :
    commaDotChar (commaDotChar ch) = commaDotChar ch := by
  by_cases h : ch = ','
  · subst h; rfl
  · simp [commaDotChar, h]

theorem all_ws_map (l : List Char) :
    (l.map commaDotChar).all Char.isWhitespace = l.all Char.isWhitespace := by
  induction l with
  | nil => rfl
  | cons c t ih => simp [List.all_cons, ws_commaDotChar c, ih]

theorem isBlank_commaToDot (s : String) : isBlank (commaToDot s) = isBlank s := by
  show (s.toList.map commaDotChar).all Char.isWhitespace = s.toList.all Char.isWhitespace
  exact all_ws_map s.toList

theorem map_commaDot_idem (l : List Char) :
    (l.map commaDotChar).map commaDotChar = l.map commaDotChar := by
  induction l with
  | nil => rfl
  | cons c t ih => simp [ih, commaDotChar_idem]

theorem commaToDot_idem (s : String) : commaToDot (commaToDot s) = commaToDot s := by
  show String.mk ((s.toList.map commaDotChar).map commaDotChar)
      = String.mk (s.toList.map commaDotChar)
  rw [map_commaDot_idem]

theorem stripWs_eq_nil (l : List Char) (h : ∀ x ∈ l, x.isWhitespace) :
    stripWs l = [] := by
  unfold stripWs
  rw [List.dropWhile_eq_nil_iff.mpr h]
  rfl

theorem parse_of_blank (s : String) (h : isBlank s = true) :
    pyFloatOfString (commaToDot s) = none := by
  have hws : ∀ x ∈ s.toList.map commaDotChar, x.isWhitespace := by
    intro x hx
    rcases List.mem_map.mp hx with ⟨c, hc, rfl⟩
    rw [ws_commaDotChar]
    exact List.all_eq_true.mp h c hc
  show parseSigned (stripWs (s.toList.map commaDotChar)) = none
  rw [stripWs_eq_nil _ hws]
  rfl

theorem ite_cond_true {α : Type} (c : Bool) (h : c = true) (a b : α) :
    (if c then a else b) = a := by
  rw [h]
  simp

theorem ite_cond_false {α : Type} (c : Bool) (h : c = false) (a b : α) :
    (if c then a else b) = b := by
  rw [h]
  simp

theorem check_eval (s : String) (u cq tq : ℚ) (c t : Cell)
    (hs : pyFloatOfString (commaToDot s) = some u)
    (hc : pyFloat c = some (.fin cq)) (ht : tolValue t = some (.fin tq)) :
    check_numeric_answer (.cstr s) c t = decide (|u - cq| ≤ tq) := by
  have hb : isBlank s = false := by
    cases hB : isBlank s with
    | false => rfl
    | true => rw [parse_of_blank s hB] at hs; exact Option.noConfusion hs
  show checkCore s c t = decide (|u - cq| ≤ tq)
  unfold checkCore
  rw [hb, hs, hc, ht]
  simp [pyAbsSub, pyLe]

theorem pyLe_nan (x : Coerced) : pyLe x .nan = false := by
  cases x <;> rfl

theorem check_eval_nan (s : String) (c t : Cell) (cv : Coerced)
    (hc : pyFloat c = some cv) (ht : tolValue t = some .nan) :
    check_numeric_answer (.cstr s) c t = false := by
  show checkCore s c t = false
  unfold checkCore
  cases hB : isBlank s with
  | true => rw [ite_cond_true _ rfl]
  | false =>
    rw [ite_cond_false _ rfl]
    cases hp : pyFloatOfString (commaToDot s) with
    | none => rw [hc, ht]
    | some u =>
      rw [hc, ht]
      cases cv <;> rfl

/-! ## Claim theorems -/

/-- Claim C2, amended: For a numeric question with correct value `c` and
tolerance `t ≥ 0` given as a number, an answer parsing to `u` is graded
correct iff `|u − c| ≤ t`; in particular an answer parsing to exactly
`c + t` is graded correct and one parsing to `c + t + ε` (`ε > 0`) is not.
The tolerance is taken as 0 when the field is Python `None` (the `row.get`
default for an absent column) or the empty string — but a blank tolerance
cell of an imported CSV is a float64 NaN, which fails the
`in (None, "", np.nan)` membership test, so the tolerance becomes NaN and
every answer to that question grades incorrect. -/
theorem numeric_tolerance_boundary
    (c t ε u : ℚ) (ht : 0 ≤ t) (hε : 0 < ε) (s s1 s2 : String)
    (hs : pyFloatOfString (commaToDot s) = some u)
    (h1 : pyFloatOfString (commaToDot s1) = some (c + t))
    (h2 : pyFloatOfString (commaToDot s2) = some (c + t + ε)) :
    check_numeric_answer (.cstr s) (.cnum c) (.cnum t) = decide (|u - c| ≤ t)
    ∧ check_numeric_answer (.cstr s1) (.cnum c) (.cnum t) = true
    ∧ check_numeric_answer (.cstr s2) (.cnum c) (.cnum t) = false
    ∧ check_numeric_answer (.cstr s) (.cnum c) .cnone = decide (|u - c| ≤ 0)
    ∧ check_numeric_answer (.cstr s) (.cnum c) (.cstr "") = decide (|u - c| ≤ 0)
    ∧ check_numeric_answer (.cstr s) (.cnum c) .cnan = false := by
  refine ⟨check_eval s u c t (.cnum c) (.cnum t) hs rfl rfl, ?_, ?_,
    check_eval s u c 0 (.cnum c) .cnone hs rfl rfl,
    check_eval s u c 0 (.cnum c) (.cstr "") hs rfl rfl,
    check_eval_nan s (.cnum c) .cnan (.fin c) rfl rfl⟩
  · rw [check_eval s1 (c + t) c t (.cnum c) (.cnum t) h1 rfl rfl]
    simp only [decide_eq_true_eq]
    have he : c + t - c = t := by ring
    rw [he, abs_of_nonneg ht]
  · rw [check_eval s2 (c + t + ε) c t (.cnum c) (.cnum t) h2 rfl rfl]
    simp only [decide_eq_false_iff_not, not_le]
    have he : c + t + ε - c = t + ε := by ring
    rw [he, abs_of_nonneg (by linarith)]
    linarith

/-- Witness for C2 at `c = 1`, `t = 1/2`, `ε = 1/4`: `"1.5"` (which parses
to `c + t`) is graded correct and `"1.75"` (which parses to `c + t + ε`)
is graded incorrect. -/
theorem numeric_tolerance_boundary_witness :
    check_numeric_answer (.cstr "1.5") (.cnum 1) (.cnum (1 / 2)) = true
    ∧ check_numeric_answer (.cstr "1.75") (.cnum 1) (.cnum (1 / 2)) = false := by
  have e1 : pyFloatOfString (commaToDot "1.5") = some ((1 : ℚ) + 5 / 10 ^ 1) := rfl
  have e2 : pyFloatOfString (commaToDot "1.75") = some ((1 : ℚ) + 75 / 10 ^ 2) := rfl
  have h := numeric_tolerance_boundary 1 (1 / 2) (1 / 4) (3 / 2)
    (by norm_num) (by norm_num) "1.5" "1.5" "1.75"
    (by rw [e1]; norm_num) (by rw [e1]; norm_num) (by rw [e2]; norm_num)
  exact ⟨h.2.1, h.2.2.1⟩

/-- Claim C2, counterexample: a blank tolerance cell of an imported CSV
holds a boxed float64 NaN, which fails the `in (None, "", np.nan)`
membership test at line 137 (NaN compares unequal to everything, and the
identity shortcut of `in` never fires for a freshly boxed value), so the
tolerance becomes `float(nan) = nan` and `abs(u - c) <= nan` is `False`:
the answer `"5"` against correct value `5` — deviation 0, within the
claimed default tolerance 0 — is graded incorrect, refuting "tolerance
defaults to 0 when absent/blank" for the blank-cell case. -/
theorem blank_tolerance_not_zero :
    check_numeric_answer (.cstr "5") (.cnum 5) .cnan = false
    ∧ |(5 : ℚ) - 5| ≤ 0 := by
  constructor
  · rfl
  · norm_num

/-- Claim C4: The numeric checker parses the raw answer accepting `,` as a
decimal separator (replacing commas first changes nothing, so `"3,14"`
grades exactly like `"3.14"`); when parsing fails the answer is graded
incorrect, and an absent answer is graded incorrect — the checker is a
total function into `Bool`, never an error. -/
theorem numeric_parse_policy (s : String) (c t : Cell) :
    check_numeric_answer (.cstr s) c t = check_numeric_answer (.cstr (commaToDot s)) c t
    ∧ (pyFloatOfString (commaToDot s) = none → check_numeric_answer (.cstr s) c t = false)
    ∧ check_numeric_answer .cnone c t = false := by
  refine ⟨?_, ?_, rfl⟩
  · show checkCore s c t = checkCore (commaToDot s) c t
    unfold checkCore
    rw [isBlank_commaToDot, commaToDot_idem]
  · intro hp
    show checkCore s c t = false
    unfold checkCore
    rw [hp]
    cases hB : isBlank s <;> simp

/-- Witness for C4: `"3,14"` grades exactly like `"3.14"` against correct
value `3.14`, and the unparseable `"abc"` is graded incorrect. -/
theorem numeric_parse_policy_witness :
    check_numeric_answer (.cstr "3,14") (.cnum (157 / 50)) .cnone
      = check_numeric_answer (.cstr "3.14") (.cnum (157 / 50)) .cnone
    ∧ check_numeric_answer (.cstr "abc") (.cnum (157 / 50)) .cnone = false := by
  have h1 := (numeric_parse_policy "3,14" (.cnum (157 / 50)) .cnone).1
  have h2 := (numeric_parse_policy "abc" (.cnum (157 / 50)) .cnone).2.1 (by decide)
  refine ⟨?_, h2⟩
  rw [h1]
  rfl

/-- Claim C3: A multiple-choice question whose answer map holds the string `s`
is graded correct iff `s`, case-normalized, equals the stored correct
letter, case-normalized; so `"b"` and `"B"` grade identically against a
stored `"B"`. -/
theorem mcq_case_insensitive (bank : List Row) (answers : AnswerMap)
    (i : Nat) (hi : i < bank.length) (s letter : String)
    (hm : pyLower bank[i].type = "mcq")
    (hc : bank[i].correct = .cstr letter)
    (ha : dictGet answers (bank[i].variant, bank[i].qnum) = some s) :
    ((((grade_exam bank answers).1).2.2).getD i defaultDetail).is_correct
      = (pyUpper s == pyUpper letter) := by
  rw [detail_getD bank answers i hi, gradeRow_is_correct, hm, hc, ha]
  rfl

/-- Witness for C3: against stored correct `"B"`, the lowercase answer `"b"`
is graded correct. -/
theorem mcq_case_insensitive_witness :
    ((((grade_exam [bRow] [((1, 1), "b")]).1).2.2).getD 0 defaultDetail).is_correct = true := by
  have h := mcq_case_insensitive [bRow] [((1, 1), "b")] 0 (by decide) "b" "B"
    (by decide) (by decide) (by decide)
  exact h.trans (by decide)

/-- Claim C10: An unanswered multiple-choice question is compared as the
string `"None"` after case normalization: it is graded correct exactly when
the stored correct value case-normalizes to `"NONE"` — never for letter
answers `A`-`D`, but a stored correct value `"None"` makes the unanswered
question correct. -/
theorem mcq_absent_answer_none (bank : List Row) (answers : AnswerMap)
    (i : Nat) (hi : i < bank.length)
    (hm : pyLower bank[i].type = "mcq")
    (ha : dictGet answers (bank[i].variant, bank[i].qnum) = none) :
    ((((grade_exam bank answers).1).2.2).getD i defaultDetail).is_correct
      = (("NONE" : String) == pyUpper (pyStr bank[i].correct)) := by
  rw [detail_getD bank answers i hi, gradeRow_is_correct, hm, ha]
  rfl

/-- Witness for C10: a bank row with stored correct value `"None"` grades an
unanswered question as correct. -/
theorem mcq_absent_answer_none_witness :
    ((((grade_exam [noneRow] []).1).2.2).getD 0 defaultDetail).is_correct = true := by
  have h := mcq_absent_answer_none [noneRow] [] 0 (by decide) (by decide) (by decide)
  exact h.trans (by decide)

/-- Claim C5: For a question whose key is absent from the answer map — within
the data model of §3, where the stored correct value of a multiple-choice
row is one of the option letters — grading marks the question incorrect
with awarded score 0, while its full `score` still becomes the detail's
`max_score` (and, by C6, is still summed into `max_score`). -/
theorem missing_answer_handling (bank : List Row) (answers : AnswerMap)
    (i : Nat) (hi : i < bank.length)
    (ha : dictGet answers (bank[i].variant, bank[i].qnum) = none)
    (hc : pyLower bank[i].type = "mcq" →
      bank[i].correct ∈ [Cell.cstr "A", .cstr "B", .cstr "C", .cstr "D"]) :
    ((((grade_exam bank answers).1).2.2).getD i defaultDetail).is_correct = false
    ∧ ((((grade_exam bank answers).1).2.2).getD i defaultDetail).score = 0
    ∧ ((((grade_exam bank answers).1).2.2).getD i defaultDetail).max_score
        = bank[i].score := by
  rw [detail_getD bank answers i hi]
  have hic : (gradeRow answers bank[i]).is_correct = false := by
    rw [gradeRow_is_correct, ha]
    by_cases hm : pyLower bank[i].type = "mcq"
    · rw [if_pos hm]
      have h4 := hc hm
      simp only [List.mem_cons, List.not_mem_nil, or_false] at h4
      rcases h4 with h | h | h | h <;> rw [h] <;> decide
    · rw [if_neg hm]
      rfl
  refine ⟨hic, ?_, gradeRow_max_score answers bank[i]⟩
  rw [gradeRow_score, hic]
  simp

/-- Witness for C5: the letter-answer row `bRow` with an empty answer map is
graded incorrect with score 0 and `max_score = 1`. -/
theorem missing_answer_handling_witness :
    ((((grade_exam [bRow] []).1).2.2).getD 0 defaultDetail).is_correct = false
    ∧ ((((grade_exam [bRow] []).1).2.2).getD 0 defaultDetail).score = 0
    ∧ ((((grade_exam [bRow] []).1).2.2).getD 0 defaultDetail).max_score
        = ([bRow] : List Row)[0].score :=
  missing_answer_handling [bRow] [] 0 (by decide) (by decide) (by decide)

/-- Claim C6: `max_score` equals the sum of `score` over the bank's rows
regardless of the answers, and — for banks within the data model of §3,
where scores are nonnegative — `total_score ≤ max_score`. -/
theorem score_conservation (bank : List Row) (answers : AnswerMap)
    (h : ∀ r ∈ bank, 0 ≤ r.score) :
    ((grade_exam bank answers).1).2.1 = (bank.map Row.score).sum
    ∧ ((grade_exam bank answers).1).1 ≤ ((grade_exam bank answers).1).2.1 := by
  refine ⟨grade_exam_max bank answers, ?_⟩
  rw [grade_exam_total, grade_exam_max]
  refine List.sum_le_sum ?_
  intro r hr
  rw [gradeRow_score]
  split
  · exact le_refl r.score
  · exact h r hr

/-- Witness for C6 on a one-row bank with an empty answer map. -/
theorem score_conservation_witness :
    ((grade_exam [bRow] []).1).2.1 = (([bRow] : List Row).map Row.score).sum
    ∧ ((grade_exam [bRow] []).1).1 ≤ ((grade_exam [bRow] []).1).2.1 :=
  score_conservation [bRow] [] (by intro r hr; rw [List.mem_singleton] at hr; subst hr; norm_num [bRow])

/-- Claim C7: Once the session is started, as soon as the elapsed time
`now − start_time` reaches or exceeds the 100-minute exam duration, the next
evaluation of the timer block marks the session submitted even without an
explicit submit action; and the displayed remaining time is the clamped
value `max(duration − elapsed, 0)`, rendered as floor-truncated minutes and
seconds. -/
theorem timer_expiry_auto_submit (ss : Session) (now : ℚ)
    (hs : ss.started = true)
    (h : EXAM_DURATION_MIN * 60 ≤ now - ss.start_time) :
    ((timer_step ss now).1).submitted = true
    ∧ (timer_step ss now).2
      = some (⌊(max (EXAM_DURATION_MIN * 60 - (now - ss.start_time)) 0) / 60⌋,
          ⌊max (EXAM_DURATION_MIN * 60 - (now - ss.start_time)) 0⌋
            - 60 * ⌊(max (EXAM_DURATION_MIN * 60 - (now - ss.start_time)) 0) / 60⌋) := by
  have hr : remainingSeconds ss.start_time now = 0 := by
    unfold remainingSeconds
    exact max_eq_right (by linarith)
  cases hsub : ss.submitted with
  | true =>
    constructor
    · unfold timer_step
      rw [hs]
      simp [hsub]
    · unfold timer_step
      rw [hs]
      simp [remainingSeconds]
  | false =>
    constructor
    · unfold timer_step
      rw [hs]
      simp [hsub, hr]
    · unfold timer_step
      rw [hs]
      simp [remainingSeconds]

/-- Witness for C7: a session started 101 minutes ago (6060 s elapsed
against a 6000 s duration) is auto-submitted on the next evaluation. -/
theorem timer_expiry_auto_submit_witness :
    ((timer_step ⟨true, false, 0⟩ 6060).1).submitted = true :=
  (timer_expiry_auto_submit ⟨true, false, 0⟩ 6060 rfl
    (by norm_num [EXAM_DURATION_MIN])).1

/-- Claim C8: `generate_demo_bank` reseeds the global generator from its
`seed` argument before drawing anything, so two calls with the same seed
produce identical banks — every field of every row — regardless of the
generator state each call starts from. -/
theorem demo_bank_deterministic (seed : Int) (g1 g2 : RNG) :
    (generate_demo_bank seed g1).1 = (generate_demo_bank seed g2).1 := rfl

/-- Claim C9: Grading is pure: `grade_exam` returns the answer map it was
given unchanged (the dictionary is only read through `answers.get`), and
two calls on the same bank with extensionally identical answer maps return
identical `(total, max_total, detail_rows)` triples. -/
theorem grade_exam_pure (bank : List Row) (answers a2 : AnswerMap)
    (h : ∀ k, dictGet a2 k = dictGet answers k) :
    (grade_exam bank answers).2 = answers
    ∧ (grade_exam bank a2).1 = (grade_exam bank answers).1 := by
  refine ⟨rfl, ?_⟩
  have hfun : gradeRow a2 = gradeRow answers := by
    funext r
    unfold gradeRow
    rw [h]
  have h1 : ((grade_exam bank a2).1).1 = ((grade_exam bank answers).1).1 := by
    rw [grade_exam_total, grade_exam_total, hfun]
  have h2 : ((grade_exam bank a2).1).2.1 = ((grade_exam bank answers).1).2.1 := by
    rw [grade_exam_max, grade_exam_max]
  have h3 : ((grade_exam bank a2).1).2.2 = ((grade_exam bank answers).1).2.2 := by
    rw [grade_exam_details, grade_exam_details, hfun]
  exact Prod.ext h1 (Prod.ext h2 h3)

/-- Witness for C9 on a one-question bank, with the extensionally equal maps
`[((1,1),"b")]` and `[((1,1),"b"), ((1,1),"x")]` (the second binding is
shadowed, as in a Python dict re-assignment the other way around). -/
theorem grade_exam_pure_witness :
    (grade_exam [bRow] [((1, 1), "b")]).2 = [((1, 1), "b")]
    ∧ (grade_exam [bRow] [((1, 1), "b"), ((1, 1), "x")]).1
        = (grade_exam [bRow] [((1, 1), "b")]).1 := by
  have h := grade_exam_pure [bRow] [((1, 1), "b")] [((1, 1), "b"), ((1, 1), "x")]
    (by
      intro k
      simp only [dictGet, List.lookup]
      cases hbeq : (k == ((1 : Int), (1 : Int))) <;> simp [hbeq])
  exact h

theorem bank_select_of_load_none (g : RNG) (u : Option Upload)
    (h : load_bank_from_upload u = .ok none) :
    bank_select g u = .ok (.demo (generate_demo_bank 12 g).1) := by
  unfold bank_select
  rw [h]

theorem bank_select_of_load_error (g : RNG) (u : Option Upload) (e : String)
    (h : load_bank_from_upload u = .error e) :
    bank_select g u = .error e := by
  unfold bank_select
  rw [h]

/-- Claim C1, amended: The loader's failure behaviour: a file whose name ends
in neither `.csv` nor `.json`, a file the reader cannot parse, and a table
missing required columns are each surfaced as an error message and degrade
to the synthetic demo bank; but when the required columns are present and
`variant` (or `qnum`) cannot be coerced to integers, the `astype` call —
which sits outside the loader's `try` — raises an uncaught exception that
aborts the script run instead of falling back to the synthetic bank. -/
theorem import_failure_paths (g : RNG) (u : Upload) :
    ((pyEndsWith (pyLower u.name) ".csv" || pyEndsWith (pyLower u.name) ".json") = false →
      bank_select g (some u) = .ok (.demo (generate_demo_bank 12 g).1))
    ∧ (u.data = .malformed →
      bank_select g (some u) = .ok (.demo (generate_demo_bank 12 g).1))
    ∧ (∀ cols cells, u.data = .table cols cells →
      requiredCols.filter (fun c => ¬ cols.contains c) ≠ [] →
      bank_select g (some u) = .ok (.demo (generate_demo_bank 12 g).1))
    ∧ (∀ cols cells, u.data = .table cols cells →
      (pyEndsWith (pyLower u.name) ".csv" || pyEndsWith (pyLower u.name) ".json") = true →
      requiredCols.filter (fun c => ¬ cols.contains c) = [] →
      astypeIntCol ⟨cols, cells⟩ "variant" = none →
      bank_select g (some u) = .error "TypeError: cannot coerce variant to int")
    ∧ (∀ cols cells df1, u.data = .table cols cells →
      (pyEndsWith (pyLower u.name) ".csv" || pyEndsWith (pyLower u.name) ".json") = true →
      requiredCols.filter (fun c => ¬ cols.contains c) = [] →
      astypeIntCol ⟨cols, cells⟩ "variant" = some df1 →
      astypeIntCol df1 "qnum" = none →
      bank_select g (some u) = .error "TypeError: cannot coerce qnum to int") := by
  refine ⟨?_, ?_, ?_, ?_, ?_⟩
  · intro hext
    refine bank_select_of_load_none g (some u) ?_
    show load_bank_core u = _
    unfold load_bank_core
    rw [ite_cond_false _ hext]
  · intro hdata
    refine bank_select_of_load_none g (some u) ?_
    show load_bank_core u = _
    unfold load_bank_core
    cases hext : (pyEndsWith (pyLower u.name) ".csv" || pyEndsWith (pyLower u.name) ".json") with
    | false => rfl
    | true =>
      show load_parsed u.data = _
      rw [hdata]
      rfl
  · intro cols cells hdata hmiss
    refine bank_select_of_load_none g (some u) ?_
    show load_bank_core u = _
    unfold load_bank_core
    cases hext : (pyEndsWith (pyLower u.name) ".csv" || pyEndsWith (pyLower u.name) ".json") with
    | false => rfl
    | true =>
      show load_parsed u.data = _
      rw [hdata]
      show load_table cols cells = _
      unfold load_table
      rw [if_pos hmiss]
  · intro cols cells hdata hext hmiss hvar
    refine bank_select_of_load_error g (some u) _ ?_
    show load_bank_core u = _
    unfold load_bank_core
    rw [ite_cond_true _ hext]
    show load_parsed u.data = _
    rw [hdata]
    show load_table cols cells = _
    unfold load_table
    rw [if_neg (fun hn => hn hmiss)]
    show coerce_variant_qnum cols cells = _
    unfold coerce_variant_qnum
    rw [hvar]
  · intro cols cells df1 hdata hext hmiss hvar hqnum
    refine bank_select_of_load_error g (some u) _ ?_
    show load_bank_core u = _
    unfold load_bank_core
    rw [ite_cond_true _ hext]
    show load_parsed u.data = _
    rw [hdata]
    show load_table cols cells = _
    unfold load_table
    rw [if_neg (fun hn => hn hmiss)]
    show coerce_variant_qnum cols cells = _
    unfold coerce_variant_qnum
    rw [hvar]
    show coerce_qnum df1 = _
    unfold coerce_qnum
    rw [hqnum]

/-- Witness for the C1 amendment: a `.txt` upload is rejected and the demo
bank (seed 12) is used instead. -/
theorem import_failure_paths_witness :
    bank_select ⟨0⟩ (some txtUpload)
      = .ok (.demo (generate_demo_bank 12 ⟨0⟩).1) :=
  (import_failure_paths ⟨0⟩ txtUpload).1 (by decide)

/-- Claim C1, counterexample: The syntactically well-formed CSV upload
`badVariantUpload`, whose `variant` column cannot be coerced to integers,
makes the import abort with an uncaught exception (modelled `Except.error`)
instead of degrading to the synthetic bank — refuting the claim that every
failure path of the import falls back to the synthetic bank. -/
theorem import_coercion_no_fallback :
    bank_select ⟨0⟩ (some badVariantUpload)
        = .error "TypeError: cannot coerce variant to int"
    ∧ ¬ ∃ b, bank_select ⟨0⟩ (some badVariantUpload) = .ok b := by
  have he : bank_select ⟨0⟩ (some badVariantUpload)
      = .error "TypeError: cannot coerce variant to int" := rfl
  refine ⟨he, ?_⟩
  rintro ⟨b, hb⟩
  rw [he] at hb
  exact Except.noConfusion hb

end MathEesh
